import Mathlib

/-!
Verification of `Source/Scene/EsriImageServerTerrainProvider.js`.

Shallow embedding conventions:
* JS numbers that hold angles or distances are IEEE doubles in the source; they are
  modelled by exact rationals.  The mathematical constant pi is not rational, so every
  definition that needs it takes a parameter `PI : ℚ` standing for the double
  `CesiumMath.PI`; `CesiumMath.TWO_PI` and `CesiumMath.PI_OVER_TWO` are expressed in
  terms of it.  All claims about the bounding-box arithmetic are linear in `PI`, so
  they are stated for every value of the parameter.
* The JS operator `<<` works on 32-bit two's-complement integers (shift count taken
  mod 32); it is modelled faithfully by `jsShl` below.
* Request URLs are built by string concatenation in the source, alternating string
  literals with stringified doubles.  The decimal rendering of a double is not part
  of the model; a URL is the list of its concatenated pieces, each piece either a
  literal string or an exact numeric value (`UrlPart`).
* Fallible code returns `Except`; the asynchronous promise pipeline is modelled by an
  explicit outcome type and state machine (the pieces of it whose code is outside
  this repository slice are modelled from the spec and marked as such).
-/

/-- Characters `needle` occur at the head of `hay`. -/
def charsHasLead : List Char → List Char → Bool
  | [], _ => true
  | _ :: _, [] => false
  | a :: as, b :: bs => a == b && charsHasLead as bs

/-- Characters `needle` occur contiguously somewhere in `hay`. -/
def charsHasSub (needle : List Char) : List Char → Bool
  | [] => charsHasLead needle []
  | c :: rest => charsHasLead needle (c :: rest) || charsHasSub needle rest

/-- Substring test on strings, used to state that a built URL does not mention a
query parameter. -/
def strContains (hay needle : String) : Bool :=
  charsHasSub needle.data hay.data

/-- Wrap an integer into the 32-bit two's-complement range, as JS `ToInt32`. -/
def toInt32 (n : ℤ) : ℤ := (n + 2 ^ 31) % 2 ^ 32 - 2 ^ 31

/-- The JS `<<` operator: both operands pass through `ToInt32`, the shift count is
taken mod 32, and the result wraps into 32 bits. -/
def jsShl (a : ℤ) (k : ℕ) : ℤ := toInt32 (toInt32 a * 2 ^ (k % 32))

/-- `CesiumMath.TWO_PI`, in terms of the `PI` parameter. -/
def CesiumMathTWOPI (PI : ℚ) : ℚ := 2 * PI

/-- `CesiumMath.PI_OVER_TWO`, in terms of the `PI` parameter. -/
def CesiumMathPIOverTwo (PI : ℚ) : ℚ := PI / 2

/-- A 3-component vector, as `Cartesian3`. -/
structure Cartesian3 where
  x : ℚ
  y : ℚ
  z : ℚ
deriving DecidableEq

/-- An ellipsoid, exposing its radii as the source's `ellipsoid.getRadii()`. -/
structure Ellipsoid where
  radii : Cartesian3
deriving DecidableEq

/-- The source's `ellipsoid.getRadii()`. -/
def Ellipsoid.getRadii (e : Ellipsoid) : Cartesian3 := e.radii

/-- A geographic extent (west/south/east/north, angular units). -/
structure Extent where
  west : ℚ
  south : ℚ
  east : ℚ
  north : ℚ
deriving DecidableEq

/-- The external tiling-scheme collaborator, at the interface the provider consumes:
level-zero tile counts, the ellipsoid, and the per-level maximum geometric error. -/
structure TilingScheme where
  numberOfLevelZeroTilesX : ℕ
  numberOfLevelZeroTilesY : ℕ
  ellipsoid : Ellipsoid
  getLevelMaximumGeometricError : ℕ → ℚ

/-- A 3D bounding sphere; only its center is consumed here. -/
structure BoundingSphere where
  center : Cartesian3
deriving DecidableEq

/-- A tile: its address `(level, x, y)`, its stored geographic extent, and its
precomputed 3D bounding sphere (`tile.get3DBoundingSphere()`). -/
structure Tile where
  level : ℕ
  x : ℕ
  y : ℕ
  extent : Extent
  boundingSphere3D : BoundingSphere
deriving DecidableEq

/-- The source's `tile.get3DBoundingSphere()`. -/
def Tile.get3DBoundingSphere (t : Tile) : BoundingSphere := t.boundingSphere3D

/-- One piece of a concatenated request URL: a string literal from the source, or a
stringified numeric value (an exact rational standing for the double). -/
inductive UrlPart where
  | lit : String → UrlPart
  | num : ℚ → UrlPart
deriving DecidableEq

/-- A request URL, as the list of its concatenated pieces. -/
abbrev Url := List UrlPart

/-- The proxy collaborator: an object with a `getURL` rewriting function. -/
structure Proxy where
  getURL : Url → Url

/-- The error thrown by the source through `DeveloperError`. -/
structure DeveloperErrorT where
  message : String
deriving DecidableEq

/-- The provider's projection field (`Projections.WGS84` in the source). -/
inductive ProjectionKind where
  | wgs84
  | mercator
deriving DecidableEq

/-- The provider instance: the fields assigned by the constructor. -/
structure Provider where
  url : String
  token : Option String
  tilingScheme : TilingScheme
  projection : ProjectionKind
  maxLevel : ℕ
  proxy : Option Proxy
  ready : Bool

/-- The construction description object `{ url, token, proxy }`. -/
structure Description where
  url : Option String
  token : Option String
  proxy : Option Proxy

/-- The source's `defaultValue(a, b)` helper: `a` unless it is undefined, else `b`.
Modelled from the spec: the helper itself lives in `Core/defaultValue`, outside this
repository slice; its contract is the standard undefined-fallback. -/
def defaultValue {α : Type} (a : Option α) (b : α) : α :=
  match a with
  | some v => v
  | none => b

/-- Modelled from the spec: the default geographic tiling scheme installed by the
constructor (`new GeographicTilingScheme()`), whose code is outside this repository
slice.  Spec scenario 1 fixes its level-zero tile counts at 2 in X and 1 in Y and its
overall bounds at the full globe; its per-level error budget is not consulted by any
claim that reaches this definition, so it is left at a fixed value, and the ellipsoid
carries the WGS84 radii. -/
def defaultGeographicTilingScheme : TilingScheme :=
  { numberOfLevelZeroTilesX := 2
    numberOfLevelZeroTilesY := 1
    ellipsoid := { radii := { x := 6378137, y := 6378137, z := 6356752 } }
    getLevelMaximumGeometricError := fun _ => 0 }

/-- The `EsriImageServerTerrainProvider` constructor (source lines 53-132): defaults
a missing description to `{}`, throws `DeveloperError` when `description.url` is
undefined, and otherwise assigns the instance fields.  The asynchronous JSONP
metadata fetch only draws the attribution canvas and sets `ready`; `ready` is false
when the constructor returns. -/
def EsriImageServerTerrainProvider (description : Option Description) :
    Except DeveloperErrorT Provider :=
  let d := defaultValue description { url := none, token := none, proxy := none }
  match d.url with
  | none => Except.error { message := "description.url is required." }
  | some u =>
      Except.ok
        { url := u
          token := d.token
          tilingScheme := defaultGeographicTilingScheme
          projection := ProjectionKind.wgs84
          maxLevel := 25
          proxy := d.proxy
          ready := false }

/-- Source line 141 via 134-148: the per-level error budget for the tile's level. -/
def computeDesiredGranularity (tilingScheme : TilingScheme) (tile : Tile) : ℚ :=
  let ellipsoid := tilingScheme.ellipsoid
  let level := tile.level
  let maxErrorMeters := tilingScheme.getLevelMaximumGeometricError level
  let maxErrorRadians := maxErrorMeters / (Ellipsoid.getRadii ellipsoid).x
  maxErrorRadians

/-- Source line 180: `tilingScheme.numberOfLevelZeroTilesX << level`. -/
def tilesInXDirection (s : TilingScheme) (level : ℕ) : ℤ :=
  jsShl (s.numberOfLevelZeroTilesX : ℤ) level

/-- Source line 181: `tilingScheme.numberOfLevelZeroTilesY << level`. -/
def tilesInYDirection (s : TilingScheme) (level : ℕ) : ℤ :=
  jsShl (s.numberOfLevelZeroTilesY : ℤ) level

/-- Source line 183: `CesiumMath.TWO_PI / tilesInXDirection`. -/
def xDelta (PI : ℚ) (s : TilingScheme) (level : ℕ) : ℚ :=
  CesiumMathTWOPI PI / (tilesInXDirection s level : ℚ)

/-- Source line 184: `CesiumMath.PI / tilesInYDirection`. -/
def yDelta (PI : ℚ) (s : TilingScheme) (level : ℕ) : ℚ :=
  PI / (tilesInYDirection s level : ℚ)

/-- Source line 186: `tilesInYDirection - tile.y - 1`. -/
def tileYInverted (s : TilingScheme) (t : Tile) : ℤ :=
  tilesInYDirection s t.level - (t.y : ℤ) - 1

/-- Source line 188: `-CesiumMath.PI + xDelta * tile.x`. -/
def xStart (PI : ℚ) (s : TilingScheme) (t : Tile) : ℚ :=
  -PI + xDelta PI s t.level * (t.x : ℚ)

/-- Source line 189: `-CesiumMath.PI + xDelta * (tile.x + 1)`. -/
def xStop (PI : ℚ) (s : TilingScheme) (t : Tile) : ℚ :=
  -PI + xDelta PI s t.level * ((t.x : ℚ) + 1)

/-- Source line 191: `-CesiumMath.PI_OVER_TWO + yDelta * tileY`. -/
def yStart (PI : ℚ) (s : TilingScheme) (t : Tile) : ℚ :=
  -CesiumMathPIOverTwo PI + yDelta PI s t.level * (tileYInverted s t : ℚ)

/-- Source line 192: `-CesiumMath.PI_OVER_TWO + yDelta * (tileY + 1)`. -/
def yStop (PI : ℚ) (s : TilingScheme) (t : Tile) : ℚ :=
  -CesiumMathPIOverTwo PI + yDelta PI s t.level * ((tileYInverted s t : ℚ) + 1)

/-- Source line 194: the bbox pieces `xStart + '%2C' + yStart + '%2C' + xStop +
'%2C' + yStop` (the separator is the percent-encoded comma). -/
def bboxParts (PI : ℚ) (s : TilingScheme) (t : Tile) : Url :=
  [UrlPart.num (xStart PI s t), UrlPart.lit "%2C",
   UrlPart.num (yStart PI s t), UrlPart.lit "%2C",
   UrlPart.num (xStop PI s t), UrlPart.lit "%2C",
   UrlPart.num (yStop PI s t)]

/-- Source line 195: `this.url + '/exportImage?format=tiff&f=image&size=256%2C256&bbox=' + bbox`. -/
def rawRequestUrl (PI : ℚ) (prov : Provider) (t : Tile) : Url :=
  UrlPart.lit prov.url ::
    UrlPart.lit "/exportImage?format=tiff&f=image&size=256%2C256&bbox=" ::
      bboxParts PI prov.tilingScheme t

/-- Source lines 196-198: `if (this.token) url += '&token=' + this.token`.  The JS
condition is truthiness, so the empty string appends nothing. -/
def requestUrlWithToken (PI : ℚ) (prov : Provider) (t : Tile) : Url :=
  rawRequestUrl PI prov t ++
    (match prov.token with
     | some s => if s == "" then [] else [UrlPart.lit ("&token=" ++ s)]
     | none => [])

/-- Source lines 199-201: `if (typeof this._proxy !== 'undefined') url = this._proxy.getURL(url)`. -/
def createRasterRequestUrl (PI : ℚ) (prov : Provider) (t : Tile) : Url :=
  match prov.proxy with
  | some p => p.getURL (requestUrlWithToken PI prov t)
  | none => requestUrlWithToken PI prov t

/-- Whether some literal piece of a URL mentions the given query-parameter text. -/
def urlMentionsParam (u : Url) (param : String) : Bool :=
  u.any fun p =>
    match p with
    | UrlPart.lit s => strContains s param
    | UrlPart.num _ => false

/-- The raster image object resolved by `loadImage` (only its dimensions matter to
the embedding; the pixel bytes are read off separately). -/
structure Image where
  width : ℕ
  height : ℕ
deriving DecidableEq

/-- The argument record passed to `HeightmapTessellator.computeBuffers`
(source lines 218-229). -/
structure HeightmapTessellatorArgs where
  heightmap : List ℕ
  heightScale : ℚ
  heightOffset : ℚ
  bytesPerHeight : ℕ
  strideBytes : ℕ
  ellipsoid : Ellipsoid
  extent : Extent
  generateTextureCoords : Bool
  interleave : Bool
  relativeToCenter : Cartesian3

/-- Source lines 203-229: the tessellation call site inside the success
continuation.  `extent` is the tile's stored extent, `ellipsoid` the scheme's, and
`relativeToCenter` the tile's 3D bounding-sphere center; `pixels` are the raster
bytes read back from the canvas copy of the fetched image. -/
def tessellatorCallArgs (tilingScheme : TilingScheme) (tile : Tile)
    (pixels : List ℕ) : HeightmapTessellatorArgs :=
  { heightmap := pixels
    heightScale := 1000
    heightOffset := 1000
    bytesPerHeight := 3
    strideBytes := 4
    ellipsoid := tilingScheme.ellipsoid
    extent := tile.extent
    generateTextureCoords := true
    interleave := true
    relativeToCenter := (Tile.get3DBoundingSphere tile).center }

/-- Modelled from the spec: the error kinds of the asynchronous phases (section 7 of
the spec; the raster fetch, decode and tessellation collaborators are outside this
repository slice). -/
inductive TerrainErrorKind where
  | fetchError
  | decodeError
  | tessellationError
deriving DecidableEq

/-- Modelled from the spec: the outcome of one asynchronous phase, as delivered
through the promise chain of source lines 202-232. -/
inductive PhaseOutcome (α : Type) where
  | ok : α → PhaseOutcome α
  | failed : TerrainErrorKind → PhaseOutcome α
deriving DecidableEq

/-- A decoded elevation sample grid (spec section 4.3). -/
abbrev SampleGrid := List (List ℚ)

/-- Mesh vertex/index buffers (spec section 4.4); their contents are produced by the
external tessellator. -/
structure MeshBuffers where
  vertexData : List ℚ
  indexData : List ℕ
deriving DecidableEq

/-- The per-tile geometry state the pipeline may publish: the readiness flag and the
attached mesh buffers. -/
structure TileGeometryState where
  ready : Bool
  meshBuffers : Option MeshBuffers
deriving DecidableEq

/-- Modelled from the spec: the fetch-decode-tessellate chain of
`createTileEllipsoidGeometry` (source lines 202-232), with the three collaborators
(`loadImage`, the canvas decode, `HeightmapTessellator` plus
`TerrainProvider.createTileEllipsoidGeometryFromBuffers`) abstracted as phase
oracles.  Exactly as in the source, the tile is touched only in the final step: on
any failure the rejection propagates through the returned handle and the incoming
state is returned untouched; on full success the buffers are attached, the readiness
flag is set, and the handle resolves to `true`. -/
def runTileGeometryPipeline (fetch : PhaseOutcome Image)
    (decode : Image → PhaseOutcome SampleGrid)
    (tessellate : SampleGrid → PhaseOutcome MeshBuffers)
    (st : TileGeometryState) : TileGeometryState × PhaseOutcome Bool :=
  match fetch with
  | PhaseOutcome.failed e => (st, PhaseOutcome.failed e)
  | PhaseOutcome.ok img =>
      match decode img with
      | PhaseOutcome.failed e => (st, PhaseOutcome.failed e)
      | PhaseOutcome.ok grid =>
          match tessellate grid with
          | PhaseOutcome.failed e => (st, PhaseOutcome.failed e)
          | PhaseOutcome.ok buffers =>
              ({ ready := true, meshBuffers := some buffers }, PhaseOutcome.ok true)

/-- Modelled from the spec: the per-tile phases of section 4.5's state machine. -/
inductive TileGeometryPhase where
  | unrequested
  | requesting
  | decoding
  | tessellating
  | ready
  | failed
deriving DecidableEq

/-- Modelled from the spec: the events driving the section 4.5 state machine. -/
inductive PipelineEvent where
  | request
  | rasterArrived
  | decodeSucceeded
  | tessellationSucceeded
  | phaseFailed
deriving DecidableEq

/-- Modelled from the spec: the transition function of section 4.5.  `failed` is
terminal (no retry path), and no transition leaves `ready`. -/
def stepTilePhase : TileGeometryPhase → PipelineEvent → TileGeometryPhase
  | TileGeometryPhase.unrequested, PipelineEvent.request => TileGeometryPhase.requesting
  | TileGeometryPhase.requesting, PipelineEvent.rasterArrived => TileGeometryPhase.decoding
  | TileGeometryPhase.decoding, PipelineEvent.decodeSucceeded => TileGeometryPhase.tessellating
  | TileGeometryPhase.tessellating, PipelineEvent.tessellationSucceeded => TileGeometryPhase.ready
  | TileGeometryPhase.requesting, PipelineEvent.phaseFailed => TileGeometryPhase.failed
  | TileGeometryPhase.decoding, PipelineEvent.phaseFailed => TileGeometryPhase.failed
  | TileGeometryPhase.tessellating, PipelineEvent.phaseFailed => TileGeometryPhase.failed
  | s, _ => s

/-- The readiness flag a phase exposes: true exactly in the `ready` phase. -/
def readinessFlag : TileGeometryPhase → Bool
  | TileGeometryPhase.ready => true
  | _ => false

/-- A rendering context handle (consumed but never inspected by this file's code). -/
structure Context where
  id : ℕ
deriving DecidableEq

/-- Source lines 247-249: `createTilePlaneGeometry` throws
`DeveloperError('Not supported yet.')` unconditionally and synchronously; no other
statement runs, so no state is read or written.  This error realizes the spec's
`UnsupportedOperation`. -/
def createTilePlaneGeometry (_context : Context) (_tile : Tile)
    (_projection : ProjectionKind) : Except DeveloperErrorT Bool :=
  Except.error { message := "Not supported yet." }

theorem toInt32_eq_self (n : ℤ) (h0 : 0 ≤ n) (h1 : n < 2 ^ 31) : toInt32 n = n := by
  have h2 : (2 : ℤ) ^ 31 = 2147483648 := by norm_num
  have h3 : (2 : ℤ) ^ 32 = 4294967296 := by norm_num
  unfold toInt32
  rw [h2, h3]
  rw [h2] at h1
  omega

theorem jsShl_small (a k : ℕ) (hk : k < 32) (ha : a * 2 ^ k < 2 ^ 31) :
    jsShl (a : ℤ) k = ((a * 2 ^ k : ℕ) : ℤ) := by
  have hk32 : k % 32 = k := Nat.mod_eq_of_lt hk
  have h1 : 1 ≤ 2 ^ k := Nat.one_le_two_pow
  have ha0 : a < 2 ^ 31 := lt_of_le_of_lt (by nlinarith) ha
  have e1 : toInt32 (a : ℤ) = (a : ℤ) :=
    toInt32_eq_self _ (Int.natCast_nonneg a) (by exact_mod_cast ha0)
  unfold jsShl
  rw [hk32, e1]
  have e2 : (a : ℤ) * 2 ^ k = ((a * 2 ^ k : ℕ) : ℤ) := by push_cast; ring
  rw [e2]
  exact toInt32_eq_self _ (Int.natCast_nonneg _) (by exact_mod_cast ha)

theorem subdivisionBounds (H : ℚ) (T : ℕ) (j : ℤ) (hH : 0 < H) (hT : 0 < T)
    (hj0 : 0 ≤ j) (hjT : j + 1 ≤ (T : ℤ)) :
    -H + 2 * H / (T : ℚ) * (j : ℚ) < -H + 2 * H / (T : ℚ) * ((j : ℚ) + 1) ∧
    -H ≤ -H + 2 * H / (T : ℚ) * (j : ℚ) ∧
    -H + 2 * H / (T : ℚ) * ((j : ℚ) + 1) ≤ H := by
  have hTQ : (0 : ℚ) < (T : ℚ) := by exact_mod_cast hT
  have hdelta : 0 < 2 * H / (T : ℚ) := by positivity
  have hjQ : (0 : ℚ) ≤ (j : ℚ) := by exact_mod_cast hj0
  have hjTQ : (j : ℚ) + 1 ≤ (T : ℚ) := by exact_mod_cast hjT
  refine ⟨?_, ?_, ?_⟩
  · have := mul_lt_mul_of_pos_left (by linarith : (j : ℚ) < (j : ℚ) + 1) hdelta
    linarith
  · have := mul_nonneg hdelta.le hjQ
    linarith
  · have h5 := mul_le_mul_of_nonneg_left hjTQ hdelta.le
    have h6 : 2 * H / (T : ℚ) * (T : ℚ) = 2 * H := div_mul_cancel₀ _ (ne_of_gt hTQ)
    linarith

def tile000 : Tile :=
  { level := 0, x := 0, y := 0
    extent := { west := 0, south := 0, east := 0, north := 0 }
    boundingSphere3D := { center := { x := 0, y := 0, z := 0 } } }

def scenario1Provider : Provider :=
  { url := "https://example/ImageServer", token := none
    tilingScheme := defaultGeographicTilingScheme
    projection := ProjectionKind.wgs84, maxLevel := 25, proxy := none, ready := false }

/-- C1: for the provider constructed with url `https://example/ImageServer` and no
token, on the 2-by-1 level-zero geographic scheme, the raster request URL built by
`createTileEllipsoidGeometry` for tile (level 0, x 0, y 0) carries the bounding box
west `-PI`, south `-PI/2`, east `0`, north `PI/2` (the radian form of
-180,-90,0,90 degrees) and mentions no `&token=` parameter. -/
theorem esriScenario1RequestUrl (PI : ℚ) :
    createRasterRequestUrl PI scenario1Provider tile000 =
      [UrlPart.lit "https://example/ImageServer",
       UrlPart.lit "/exportImage?format=tiff&f=image&size=256%2C256&bbox=",
       UrlPart.num (-PI), UrlPart.lit "%2C",
       UrlPart.num (-(PI / 2)), UrlPart.lit "%2C",
       UrlPart.num 0, UrlPart.lit "%2C",
       UrlPart.num (PI / 2)] ∧
    urlMentionsParam (createRasterRequestUrl PI scenario1Provider tile000)
      ("&token=") = false := by
  have hX : tilesInXDirection defaultGeographicTilingScheme 0 = 2 := by decide
  have hY : tilesInYDirection defaultGeographicTilingScheme 0 = 1 := by decide
  have hty : tileYInverted defaultGeographicTilingScheme tile000 = 0 := by decide
  have hl0 : tile000.level = 0 := rfl
  have hx0 : tile000.x = 0 := rfl
  have hxs : xStart PI defaultGeographicTilingScheme tile000 = -PI := by
    simp [xStart, xDelta, CesiumMathTWOPI, hl0, hx0, hX]
  have hxe : xStop PI defaultGeographicTilingScheme tile000 = 0 := by
    simp [xStop, xDelta, CesiumMathTWOPI, hl0, hx0, hX]
    try ring
  have hys : yStart PI defaultGeographicTilingScheme tile000 = -(PI / 2) := by
    simp [yStart, yDelta, CesiumMathPIOverTwo, hl0, hY, hty]
  have hyn : yStop PI defaultGeographicTilingScheme tile000 = PI / 2 := by
    simp [yStop, yDelta, CesiumMathPIOverTwo, hl0, hY, hty]
    try ring
  have hmain : createRasterRequestUrl PI scenario1Provider tile000 =
      [UrlPart.lit "https://example/ImageServer",
       UrlPart.lit "/exportImage?format=tiff&f=image&size=256%2C256&bbox=",
       UrlPart.num (-PI), UrlPart.lit "%2C",
       UrlPart.num (-(PI / 2)), UrlPart.lit "%2C",
       UrlPart.num 0, UrlPart.lit "%2C",
       UrlPart.num (PI / 2)] := by
    simp [createRasterRequestUrl, requestUrlWithToken, rawRequestUrl, bboxParts,
      scenario1Provider, hxs, hxe, hys, hyn]
  refine ⟨hmain, ?_⟩
  rw [hmain]
  rfl

/-- C2 (amended): for every tile, the raster request URL is
`{url}/exportImage?format=tiff&f=image&size=256%2C256&bbox={west}%2C{south}%2C{east}%2C{north}`
(the separators are the percent-encoded comma), with `&token={token}` appended if
and only if a non-empty token was configured (so with a non-empty token and no
proxy, the URL ends with the token piece), and the whole URL is passed through the
configured proxy's `getURL` when one is present. -/
theorem esriRequestUrlShape (PI : ℚ) (prov : Provider) (t : Tile) :
    rawRequestUrl PI prov t =
      [UrlPart.lit prov.url,
       UrlPart.lit "/exportImage?format=tiff&f=image&size=256%2C256&bbox=",
       UrlPart.num (xStart PI prov.tilingScheme t), UrlPart.lit "%2C",
       UrlPart.num (yStart PI prov.tilingScheme t), UrlPart.lit "%2C",
       UrlPart.num (xStop PI prov.tilingScheme t), UrlPart.lit "%2C",
       UrlPart.num (yStop PI prov.tilingScheme t)] ∧
    (requestUrlWithToken PI prov t ≠ rawRequestUrl PI prov t ↔
      ∃ s, prov.token = some s ∧ s ≠ "") ∧
    (∀ s, prov.token = some s → s ≠ "" →
      requestUrlWithToken PI prov t =
        rawRequestUrl PI prov t ++ [UrlPart.lit ("&token=" ++ s)]) ∧
    (prov.proxy = none →
      createRasterRequestUrl PI prov t = requestUrlWithToken PI prov t) ∧
    (∀ p, prov.proxy = some p →
      createRasterRequestUrl PI prov t = p.getURL (requestUrlWithToken PI prov t)) := by
  refine ⟨rfl, ?_, ?_, ?_, ?_⟩
  · cases htok : prov.token with
    | none => simp [requestUrlWithToken, htok]
    | some s =>
      by_cases hs : s = ""
      · subst hs
        simp [requestUrlWithToken, htok]
      · have hne : rawRequestUrl PI prov t ++ [UrlPart.lit ("&token=" ++ s)] ≠
            rawRequestUrl PI prov t := by
          intro h
          have hlen := congrArg List.length h
          simp at hlen
        simp only [requestUrlWithToken, htok]
        rw [if_neg (by simpa using hs)]
        simp [hne, hs]
  · intro s hsome hserr
    simp [requestUrlWithToken, hsome, hserr]
  · intro h
    simp [createRasterRequestUrl, h]
  · intro p h
    simp [createRasterRequestUrl, h]

def emptyTokenProvider : Provider :=
  { url := "https://example/ImageServer", token := some ""
    tilingScheme := defaultGeographicTilingScheme
    projection := ProjectionKind.wgs84, maxLevel := 25, proxy := none, ready := false }

/-- C2 counterexample: a provider constructed with the empty-string token has a
token configured, yet the built request URL has no token piece appended (the JS
truthiness test on `this.token` rejects the empty string), so appending is not
equivalent to a token being configured. -/
theorem esriTokenIffConfiguredFalse :
    ¬ ((requestUrlWithToken 1 emptyTokenProvider tile000 ≠
          rawRequestUrl 1 emptyTokenProvider tile000) ↔
        emptyTokenProvider.token.isSome = true) := by
  intro h
  have h2 : requestUrlWithToken 1 emptyTokenProvider tile000 =
      rawRequestUrl 1 emptyTokenProvider tile000 := by
    simp [requestUrlWithToken, emptyTokenProvider]
  have h3 : emptyTokenProvider.token.isSome = true := rfl
  exact (h.mpr h3) h2

def tokenProviderT : Provider :=
  { url := "https://example/ImageServer", token := some "T"
    tilingScheme := defaultGeographicTilingScheme
    projection := ProjectionKind.wgs84, maxLevel := 25, proxy := none, ready := false }

def prependProxy : Proxy :=
  { getURL := fun u => UrlPart.lit "https://proxy/?target=" :: u }

def proxiedProviderT : Provider :=
  { url := "https://example/ImageServer", token := some "T"
    tilingScheme := defaultGeographicTilingScheme
    projection := ProjectionKind.wgs84, maxLevel := 25, proxy := some prependProxy
    ready := false }

/-- Witness for C2: with token `T` and no proxy the URL ends with the
`&token=T` piece, with a proxy the whole URL passes through `getURL`, and without a
proxy the URL is the token-suffixed one. -/
theorem esriRequestUrlShapeWitness :
    requestUrlWithToken 1 tokenProviderT tile000 =
      rawRequestUrl 1 tokenProviderT tile000 ++ [UrlPart.lit ("&token=" ++ "T")] ∧
    createRasterRequestUrl 1 proxiedProviderT tile000 =
      prependProxy.getURL (requestUrlWithToken 1 proxiedProviderT tile000) ∧
    createRasterRequestUrl 1 tokenProviderT tile000 =
      requestUrlWithToken 1 tokenProviderT tile000 :=
  ⟨(esriRequestUrlShape 1 tokenProviderT tile000).2.2.1 "T" rfl (by decide),
   (esriRequestUrlShape 1 proxiedProviderT tile000).2.2.2.2 prependProxy rfl,
   (esriRequestUrlShape 1 tokenProviderT tile000).2.2.2.1 rfl⟩

/-- C3: for every valid tile address, in the 32-bit-safe regime of the shift
operands (which covers the provider's actual scheme, 2 by 1 level-zero tiles up to
`maxLevel` 25), the geographic extent computed for the raster request has
`west < east` and `south < north` and lies within the scheme's overall bounds, the
full globe `[-PI, PI] x [-PI/2, PI/2]`. -/
theorem esriBboxValid (PI : ℚ) (s : TilingScheme) (t : Tile)
    (hPI : 0 < PI)
    (hnx : 0 < s.numberOfLevelZeroTilesX) (hny : 0 < s.numberOfLevelZeroTilesY)
    (hlev : t.level < 32)
    (hX31 : s.numberOfLevelZeroTilesX * 2 ^ t.level < 2 ^ 31)
    (hY31 : s.numberOfLevelZeroTilesY * 2 ^ t.level < 2 ^ 31)
    (hx : t.x < s.numberOfLevelZeroTilesX * 2 ^ t.level)
    (hy : t.y < s.numberOfLevelZeroTilesY * 2 ^ t.level) :
    xStart PI s t < xStop PI s t ∧ yStart PI s t < yStop PI s t ∧
    -PI ≤ xStart PI s t ∧ xStop PI s t ≤ PI ∧
    -(PI / 2) ≤ yStart PI s t ∧ yStop PI s t ≤ PI / 2 := by
  have hTX : tilesInXDirection s t.level =
      ((s.numberOfLevelZeroTilesX * 2 ^ t.level : ℕ) : ℤ) := by
    unfold tilesInXDirection
    exact jsShl_small _ _ hlev hX31
  have hTY : tilesInYDirection s t.level =
      ((s.numberOfLevelZeroTilesY * 2 ^ t.level : ℕ) : ℤ) := by
    unfold tilesInYDirection
    exact jsShl_small _ _ hlev hY31
  have hTXpos : 0 < s.numberOfLevelZeroTilesX * 2 ^ t.level :=
    Nat.mul_pos hnx (Nat.pos_pow_of_pos _ (by norm_num))
  have hTYpos : 0 < s.numberOfLevelZeroTilesY * 2 ^ t.level :=
    Nat.mul_pos hny (Nat.pos_pow_of_pos _ (by norm_num))
  have hxZ : (t.x : ℤ) + 1 ≤ ((s.numberOfLevelZeroTilesX * 2 ^ t.level : ℕ) : ℤ) :=
    Int.add_one_le_iff.mpr (by exact_mod_cast hx)
  have hyZ : (t.y : ℤ) + 1 ≤ ((s.numberOfLevelZeroTilesY * 2 ^ t.level : ℕ) : ℤ) :=
    Int.add_one_le_iff.mpr (by exact_mod_cast hy)
  have hj0 : 0 ≤ tileYInverted s t := by
    rw [tileYInverted, hTY]
    omega
  have hjT : tileYInverted s t + 1 ≤
      ((s.numberOfLevelZeroTilesY * 2 ^ t.level : ℕ) : ℤ) := by
    rw [tileYInverted, hTY]
    have h0 : 0 ≤ (t.y : ℤ) := Int.natCast_nonneg _
    omega
  have hxs : xStart PI s t =
      -PI + 2 * PI / ((s.numberOfLevelZeroTilesX * 2 ^ t.level : ℕ) : ℚ) *
        (((t.x : ℤ) : ℚ)) := by
    rw [xStart, xDelta, CesiumMathTWOPI, hTX]
    push_cast
    ring
  have hxe : xStop PI s t =
      -PI + 2 * PI / ((s.numberOfLevelZeroTilesX * 2 ^ t.level : ℕ) : ℚ) *
        (((t.x : ℤ) : ℚ) + 1) := by
    rw [xStop, xDelta, CesiumMathTWOPI, hTX]
    push_cast
    ring
  have hys : yStart PI s t =
      -(PI / 2) + 2 * (PI / 2) / ((s.numberOfLevelZeroTilesY * 2 ^ t.level : ℕ) : ℚ) *
        ((tileYInverted s t : ℚ)) := by
    rw [yStart, yDelta, CesiumMathPIOverTwo, hTY]
    push_cast
    ring
  have hyn : yStop PI s t =
      -(PI / 2) + 2 * (PI / 2) / ((s.numberOfLevelZeroTilesY * 2 ^ t.level : ℕ) : ℚ) *
        ((tileYInverted s t : ℚ) + 1) := by
    rw [yStop, yDelta, CesiumMathPIOverTwo, hTY]
    push_cast
    ring
  obtain ⟨hx1, hx2, hx3⟩ :=
    subdivisionBounds PI (s.numberOfLevelZeroTilesX * 2 ^ t.level) (t.x : ℤ)
      hPI hTXpos (Int.natCast_nonneg _) hxZ
  obtain ⟨hy1, hy2, hy3⟩ :=
    subdivisionBounds (PI / 2) (s.numberOfLevelZeroTilesY * 2 ^ t.level)
      (tileYInverted s t) (by positivity) hTYpos hj0 hjT
  rw [hxs, hxe, hys, hyn]
  exact ⟨hx1, hy1, hx2, hx3, hy2, hy3⟩

/-- Witness for C3: the valid extent facts at the concrete provider scheme (2 by 1
level-zero tiles) and tile (level 0, x 0, y 0), with unit PI. -/
theorem esriBboxValidWitness :
    xStart 1 defaultGeographicTilingScheme tile000 <
      xStop 1 defaultGeographicTilingScheme tile000 ∧
    yStart 1 defaultGeographicTilingScheme tile000 <
      yStop 1 defaultGeographicTilingScheme tile000 ∧
    -1 ≤ xStart 1 defaultGeographicTilingScheme tile000 ∧
    xStop 1 defaultGeographicTilingScheme tile000 ≤ 1 ∧
    -(1 / 2) ≤ yStart 1 defaultGeographicTilingScheme tile000 ∧
    yStop 1 defaultGeographicTilingScheme tile000 ≤ 1 / 2 :=
  esriBboxValid 1 defaultGeographicTilingScheme tile000 (by norm_num)
    (by decide) (by decide) (by decide) (by decide) (by decide) (by decide) (by decide)

/-- C4: for every tile in the 32-bit-safe regime of the shift operands, the code's
inverted Y index equals `numberOfLevelZeroTilesY * 2 ^ level - y - 1`, and the south
and north request bounds are computed from exactly that inverted index. -/
theorem esriTileYInversion (s : TilingScheme) (t : Tile)
    (hlev : t.level < 32)
    (hY31 : s.numberOfLevelZeroTilesY * 2 ^ t.level < 2 ^ 31) :
    tilesInYDirection s t.level =
      ((s.numberOfLevelZeroTilesY * 2 ^ t.level : ℕ) : ℤ) ∧
    tileYInverted s t =
      ((s.numberOfLevelZeroTilesY * 2 ^ t.level : ℕ) : ℤ) - (t.y : ℤ) - 1 ∧
    (∀ PI : ℚ,
      yStart PI s t =
        -(PI / 2) + PI / ((s.numberOfLevelZeroTilesY * 2 ^ t.level : ℕ) : ℚ) *
          (((s.numberOfLevelZeroTilesY * 2 ^ t.level : ℕ) : ℚ) - (t.y : ℚ) - 1) ∧
      yStop PI s t =
        -(PI / 2) + PI / ((s.numberOfLevelZeroTilesY * 2 ^ t.level : ℕ) : ℚ) *
          ((((s.numberOfLevelZeroTilesY * 2 ^ t.level : ℕ) : ℚ) - (t.y : ℚ) - 1) + 1)) := by
  have hTY : tilesInYDirection s t.level =
      ((s.numberOfLevelZeroTilesY * 2 ^ t.level : ℕ) : ℤ) := by
    unfold tilesInYDirection
    exact jsShl_small _ _ hlev hY31
  have hinv : tileYInverted s t =
      ((s.numberOfLevelZeroTilesY * 2 ^ t.level : ℕ) : ℤ) - (t.y : ℤ) - 1 := by
    rw [tileYInverted, hTY]
  refine ⟨hTY, hinv, ?_⟩
  intro PI
  constructor
  · rw [yStart, yDelta, CesiumMathPIOverTwo, hTY, hinv]
    push_cast
    ring
  · rw [yStop, yDelta, CesiumMathPIOverTwo, hTY, hinv]
    push_cast
    ring

/-- Witness for C4: the inversion facts at the concrete provider scheme and tile
(level 0, x 0, y 0), with unit PI. -/
theorem esriTileYInversionWitness :
    tilesInYDirection defaultGeographicTilingScheme 0 = ((1 * 2 ^ 0 : ℕ) : ℤ) ∧
    tileYInverted defaultGeographicTilingScheme tile000 =
      ((1 * 2 ^ 0 : ℕ) : ℤ) - ((tile000.y : ℤ)) - 1 ∧
    yStart 1 defaultGeographicTilingScheme tile000 =
      -(1 / 2) + 1 / ((1 * 2 ^ 0 : ℕ) : ℚ) *
        (((1 * 2 ^ 0 : ℕ) : ℚ) - (tile000.y : ℚ) - 1) := by
  have h := esriTileYInversion defaultGeographicTilingScheme tile000
    (by decide) (by decide)
  exact ⟨h.1, h.2.1, (h.2.2 1).1⟩

/-- C5: the readiness flag is true only in the `ready` phase; the `failed` phase is
terminal under every event sequence; and for the fetch-decode-tessellate chain, the
readiness flag of the resulting state is true exactly when the returned handle
resolves to true, while any phase failure leaves the readiness flag false and no
mesh buffer attached, the failure being carried only by the returned handle. -/
theorem esriTileReadinessPipeline :
    (∀ p : TileGeometryPhase, readinessFlag p = true ↔ p = TileGeometryPhase.ready) ∧
    (∀ evs : List PipelineEvent,
      evs.foldl stepTilePhase TileGeometryPhase.failed = TileGeometryPhase.failed) ∧
    (∀ (fetch : PhaseOutcome Image) (decode : Image → PhaseOutcome SampleGrid)
        (tessellate : SampleGrid → PhaseOutcome MeshBuffers) (st : TileGeometryState),
      st.ready = false → st.meshBuffers = none →
        (((runTileGeometryPipeline fetch decode tessellate st).1.ready = true) ↔
          (runTileGeometryPipeline fetch decode tessellate st).2 =
            PhaseOutcome.ok true) ∧
        (∀ e,
          (runTileGeometryPipeline fetch decode tessellate st).2 =
              PhaseOutcome.failed e →
            (runTileGeometryPipeline fetch decode tessellate st).1.ready = false ∧
            (runTileGeometryPipeline fetch decode tessellate st).1.meshBuffers =
              none)) := by
  refine ⟨?_, ?_, ?_⟩
  · intro p
    cases p <;> simp [readinessFlag]
  · intro evs
    induction evs with
    | nil => rfl
    | cons e rest ih =>
      have hstep : stepTilePhase TileGeometryPhase.failed e = TileGeometryPhase.failed := by
        cases e <;> rfl
      rw [List.foldl_cons, hstep]
      exact ih
  · intro fetch decode tessellate st hr hm
    cases fetch with
    | failed e => simp [runTileGeometryPipeline, hr, hm]
    | ok img =>
      cases hdec : decode img with
      | failed e => simp [runTileGeometryPipeline, hdec, hr, hm]
      | ok grid =>
        cases htess : tessellate grid with
        | failed e => simp [runTileGeometryPipeline, hdec, htess, hr, hm]
        | ok buffers => simp [runTileGeometryPipeline, hdec, htess]

/-- Witness for C5: a failing fetch leaves the initially unready, bufferless tile
state unready with no buffers. -/
theorem esriTileReadinessPipelineWitness :
    (runTileGeometryPipeline (PhaseOutcome.failed TerrainErrorKind.fetchError)
        (fun _ => PhaseOutcome.ok ([] : SampleGrid))
        (fun _ => PhaseOutcome.ok { vertexData := [], indexData := [] })
        { ready := false, meshBuffers := none }).1.ready = false ∧
    (runTileGeometryPipeline (PhaseOutcome.failed TerrainErrorKind.fetchError)
        (fun _ => PhaseOutcome.ok ([] : SampleGrid))
        (fun _ => PhaseOutcome.ok { vertexData := [], indexData := [] })
        { ready := false, meshBuffers := none }).1.meshBuffers = none := by
  have h := (esriTileReadinessPipeline.2.2
    (PhaseOutcome.failed TerrainErrorKind.fetchError)
    (fun _ => PhaseOutcome.ok ([] : SampleGrid))
    (fun _ => PhaseOutcome.ok { vertexData := [], indexData := [] })
    { ready := false, meshBuffers := none } rfl rfl)
  exact h.2 TerrainErrorKind.fetchError rfl

/-- C6: for every context, tile and projection argument, the plane-projection entry
point fails immediately and synchronously with the unsupported-operation error
(`DeveloperError` with message `Not supported yet.`); being an unconditional throw,
it performs no work and touches no tile state. -/
theorem esriPlaneGeometryUnsupported :
    ∀ (context : Context) (tile : Tile) (projection : ProjectionKind),
      createTilePlaneGeometry context tile projection =
        Except.error { message := "Not supported yet." } :=
  fun _ _ _ => rfl

/-- C7: construction fails with the configuration error exactly when the `url`
field is absent from the description, including when no description is supplied at
all; with `url` present it returns a provider normally. -/
theorem esriConstructorUrlRequired :
    (EsriImageServerTerrainProvider none =
      Except.error { message := "description.url is required." }) ∧
    (∀ d : Description, d.url = none →
      EsriImageServerTerrainProvider (some d) =
        Except.error { message := "description.url is required." }) ∧
    (∀ (d : Description) (u : String), d.url = some u →
      ∃ p : Provider, EsriImageServerTerrainProvider (some d) = Except.ok p ∧
        p.url = u ∧ p.token = d.token ∧ p.ready = false) := by
  refine ⟨rfl, ?_, ?_⟩
  · intro d h
    simp [EsriImageServerTerrainProvider, defaultValue, h]
  · intro d u h
    refine ⟨{ url := u, token := d.token, tilingScheme := defaultGeographicTilingScheme,
              projection := ProjectionKind.wgs84, maxLevel := 25, proxy := d.proxy,
              ready := false }, ?_, rfl, rfl, rfl⟩
    simp [EsriImageServerTerrainProvider, defaultValue, h]

def descNoUrl : Description := { url := none, token := some "T", proxy := none }

def descWithUrl : Description :=
  { url := some "https://example/ImageServer", token := none, proxy := none }

/-- Witness for C7: a description without `url` fails, one with `url` succeeds. -/
theorem esriConstructorUrlRequiredWitness :
    (EsriImageServerTerrainProvider (some descNoUrl) =
      Except.error { message := "description.url is required." }) ∧
    (∃ p : Provider,
      EsriImageServerTerrainProvider (some descWithUrl) = Except.ok p ∧
        p.url = "https://example/ImageServer" ∧ p.token = descWithUrl.token ∧
        p.ready = false) :=
  ⟨esriConstructorUrlRequired.2.1 descNoUrl rfl,
   esriConstructorUrlRequired.2.2 descWithUrl "https://example/ImageServer" rfl⟩

/-- C8: the geometric error estimator returns exactly the scheme's per-level
maximum geometric error at the tile's level divided by the ellipsoid's equatorial
radius, and depends on the tile only through its level — in particular there is no
latitude-dependent correction, since tiles at the same level but any other address,
extent or position get the same value. -/
theorem esriGranularityFormula (s : TilingScheme) (t : Tile) :
    computeDesiredGranularity s t =
      s.getLevelMaximumGeometricError t.level / (Ellipsoid.getRadii s.ellipsoid).x ∧
    (∀ t2 : Tile, t2.level = t.level →
      computeDesiredGranularity s t2 = computeDesiredGranularity s t) := by
  refine ⟨rfl, ?_⟩
  intro t2 h
  simp [computeDesiredGranularity, h]

def tileAlt : Tile :=
  { level := 0, x := 1, y := 0
    extent := { west := -1, south := -1, east := 1, north := 1 }
    boundingSphere3D := { center := { x := 7, y := 8, z := 9 } } }

/-- Witness for C8: two level-0 tiles with different addresses, extents and
centers receive the same granularity. -/
theorem esriGranularityFormulaWitness :
    computeDesiredGranularity defaultGeographicTilingScheme tileAlt =
      computeDesiredGranularity defaultGeographicTilingScheme tile000 :=
  (esriGranularityFormula defaultGeographicTilingScheme tile000).2 tileAlt rfl

/-- C9: when the scheme's per-level maximum geometric error is non-increasing in
the level and the equatorial radius is positive, the estimator's angular error is
monotonically non-increasing as the level increases. -/
theorem esriGranularityMonotone (s : TilingScheme) (t1 t2 : Tile)
    (hmono : ∀ a b : ℕ, a ≤ b →
      s.getLevelMaximumGeometricError b ≤ s.getLevelMaximumGeometricError a)
    (hrad : 0 < (Ellipsoid.getRadii s.ellipsoid).x)
    (hlev : t1.level ≤ t2.level) :
    computeDesiredGranularity s t2 ≤ computeDesiredGranularity s t1 := by
  have h := hmono t1.level t2.level hlev
  simp only [computeDesiredGranularity]
  exact (div_le_div_iff_of_pos_right hrad).mpr h

def constErrScheme : TilingScheme :=
  { numberOfLevelZeroTilesX := 2
    numberOfLevelZeroTilesY := 1
    ellipsoid := { radii := { x := 6378137, y := 6378137, z := 6356752 } }
    getLevelMaximumGeometricError := fun _ => 42 }

def tileLevel1 : Tile :=
  { level := 1, x := 0, y := 0
    extent := { west := 0, south := 0, east := 0, north := 0 }
    boundingSphere3D := { center := { x := 0, y := 0, z := 0 } } }

/-- Witness for C9: on a scheme with a constant (hence non-increasing) error budget
and the WGS84 equatorial radius, the level-1 granularity is at most the level-0
granularity. -/
theorem esriGranularityMonotoneWitness :
    computeDesiredGranularity constErrScheme tileLevel1 ≤
      computeDesiredGranularity constErrScheme tile000 :=
  esriGranularityMonotone constErrScheme tile000 tileLevel1
    (fun _ _ _ => le_refl _) (by norm_num [constErrScheme, Ellipsoid.getRadii])
    (by decide)

/-- C10: the raster request URL depends on the tile only through its address
(level, x, y) — two tiles with the same address but different stored extents or
bounding spheres receive identical requests — while the subsequent tessellation
call receives the tile's stored extent. -/
theorem esriRequestAddressOnly (PI : ℚ) (prov : Provider) (t1 t2 : Tile)
    (hl : t1.level = t2.level) (hx : t1.x = t2.x) (hy : t1.y = t2.y) :
    createRasterRequestUrl PI prov t1 = createRasterRequestUrl PI prov t2 ∧
    (∀ (s : TilingScheme) (t : Tile) (pixels : List ℕ),
      (tessellatorCallArgs s t pixels).extent = t.extent) := by
  constructor
  · simp [createRasterRequestUrl, requestUrlWithToken, rawRequestUrl, bboxParts,
      xStart, xStop, yStart, yStop, xDelta, yDelta, tileYInverted,
      tilesInXDirection, tilesInYDirection, hl, hx, hy]
  · intro s t pixels
    rfl

def tile000Alt : Tile :=
  { level := 0, x := 0, y := 0
    extent := { west := -1, south := -1, east := 1, north := 1 }
    boundingSphere3D := { center := { x := 5, y := 5, z := 5 } } }

/-- Witness for C10: two tiles with address (0,0,0) but different stored extents
and centers get identical request URLs, and the tessellation arguments carry the
tile's stored extent. -/
theorem esriRequestAddressOnlyWitness :
    createRasterRequestUrl 1 scenario1Provider tile000 =
      createRasterRequestUrl 1 scenario1Provider tile000Alt ∧
    (tessellatorCallArgs defaultGeographicTilingScheme tile000Alt []).extent =
      tile000Alt.extent :=
  ⟨(esriRequestAddressOnly 1 scenario1Provider tile000 tile000Alt rfl rfl rfl).1,
   (esriRequestAddressOnly 1 scenario1Provider tile000 tile000Alt rfl rfl rfl).2
     defaultGeographicTilingScheme tile000Alt []⟩
